import Mathlib

/-!
Shallow embedding of the Query Service of the student-context tool server
(src/server/server.py, src/server/Models/pydantic_models.py,
src/server/Data/dummy_data.py), together with proofs about its
request/response contract and lookup-resolution logic.

Conventions of the embedding:
* Python dicts returned by the operations are modelled by the JSON-like
  value type `JVal`, with keys kept in the literal order of the source.
* A key that the source dict does not contain is simply absent from the
  `JVal.obj` field list (it is not present with a null value).
* `datetime` is modelled by `PyDateTime`; `isoformat` renders the
  ISO-8601 text exactly as CPython does for microsecond-free values.
* `uuid4()` produces a fresh random identifier at seeding time; the seed
  stores are therefore parameterised by these identifier strings.
* An "unexpected internal fault" raisable inside a scan is modelled by a
  Boolean fault flag: the instrumented variants (`..._f`) run the body in
  `Except Unit` and translate the source's try/except blocks literally.
-/

/-- JSON-like values, modelling the Python dicts the server returns. -/
inductive JVal where
  | null
  | bool (b : Bool)
  | str (s : String)
  | arr (xs : List JVal)
  | obj (fields : List (String × JVal))

/-- Keys of a JSON object, in order; `[]` on non-objects. -/
def JVal.keys : JVal → List String
  | .obj fs => fs.map Prod.fst
  | _ => []

/-- Look a key up in a JSON object (first binding wins). -/
def jget : JVal → String → Option JVal
  | .obj fs, k => (fs.find? (fun kv => kv.fst == k)).map Prod.snd
  | _, _ => none

/-- `class CourseCode(str, Enum)` from pydantic_models.py. -/
inductive CourseCode where
  | AI_101
  | AI_201
  | AI_202
  | AI_301
deriving DecidableEq

/-- The string value of each `CourseCode` member. -/
def CourseCode.value : CourseCode → String
  | .AI_101 => "AI-101"
  | .AI_201 => "AI-201"
  | .AI_202 => "AI-202"
  | .AI_301 => "AI-301"

/-- `class Weekday(str, Enum)` from pydantic_models.py. -/
inductive Weekday where
  | MONDAY
  | TUESDAY
  | WEDNESDAY
  | THURSDAY
  | FRIDAY
  | SATURDAY
  | SUNDAY
deriving DecidableEq

/-- The string value of each `Weekday` member. -/
def Weekday.value : Weekday → String
  | .MONDAY => "Monday"
  | .TUESDAY => "Tuesday"
  | .WEDNESDAY => "Wednesday"
  | .THURSDAY => "Thursday"
  | .FRIDAY => "Friday"
  | .SATURDAY => "Saturday"
  | .SUNDAY => "Sunday"

/-- `class CourseSection(str, Enum)` from pydantic_models.py. -/
inductive CourseSection where
  | A
  | B
  | C
deriving DecidableEq

/-- The string value of each `CourseSection` member. -/
def CourseSection.value : CourseSection → String
  | .A => "A"
  | .B => "B"
  | .C => "C"

/-- Zero-pad a natural to two digits (CPython datetime field rendering). -/
def pad2 (n : Nat) : String :=
  if n < 10 then "0" ++ toString n else toString n

/-- Zero-pad a natural to four digits (CPython datetime year rendering). -/
def pad4 (n : Nat) : String :=
  if n < 10 then "000" ++ toString n
  else if n < 100 then "00" ++ toString n
  else if n < 1000 then "0" ++ toString n
  else toString n

/-- Python `datetime` values as used by the server (no microseconds). -/
structure PyDateTime where
  year : Nat
  month : Nat
  day : Nat
  hour : Nat := 0
  minute : Nat := 0
  second : Nat := 0
deriving DecidableEq

/-- `datetime.isoformat()` for microsecond-free values. -/
def PyDateTime.isoformat (d : PyDateTime) : String :=
  pad4 d.year ++ "-" ++ pad2 d.month ++ "-" ++ pad2 d.day ++ "T" ++
    pad2 d.hour ++ ":" ++ pad2 d.minute ++ ":" ++ pad2 d.second

/-- `class Todo(BaseModel)`; the `id` UUID is modelled as a string. -/
structure Todo where
  id : String
  description : String
  due_date : Option PyDateTime := none
deriving DecidableEq

/-- `class Student(BaseModel)` from pydantic_models.py. -/
structure Student where
  id : String
  name : String
  email : String
  phone : String
  course_code : CourseCode := .AI_101
deriving DecidableEq

/-- `class ClassSchedule(BaseModel)` from pydantic_models.py. -/
structure ClassSchedule where
  day : Weekday
  time : String
deriving DecidableEq

/-- `class Enrollment(BaseModel)`; `sec` models the `section` field
(`section` is a reserved word in Lean), `id` models the UUID as a string. -/
structure Enrollment where
  id : String
  course_code : CourseCode
  sec : CourseSection
  course_name : Option String := none
  instructor : String
  schedule : List ClassSchedule
  last_class_date : Option PyDateTime := none
  last_class_covered : String
  todos : List Todo := []
  covered_topics : List String := []
  next_class_time : Option PyDateTime := none
deriving DecidableEq

/-- The static `_course_titles` table of `Enrollment`; `Dict.get` returns
an optional value. -/
def Enrollment.course_titles : CourseCode → Option String
  | .AI_101 => some "Modern AI Python Programming"
  | .AI_201 => some "Fundamentals of Agentic AI and DACA AI-First Development"
  | .AI_202 => some "DACA Cloud-First Agentic AI Development"
  | .AI_301 => some "DACA Planet-Scale Distributed AI Agents"

/-- Python truthiness of `Optional[str]`: falsy iff `None` or `""`. -/
def strFalsy : Option String → Bool
  | none => true
  | some s => s == ""

/-- The `@model_validator(mode="after") set_course_name` of `Enrollment`:
`if not self.course_name: self.course_name = self._course_titles.get(...)`. -/
def Enrollment.set_course_name (e : Enrollment) : Enrollment :=
  if strFalsy e.course_name then
    { e with course_name := Enrollment.course_titles e.course_code }
  else e

/-- Constructing an `Enrollment` runs the after-mode model validator. -/
def mkEnrollment (e : Enrollment) : Enrollment :=
  e.set_course_name

/-- `class CurrentTopic(BaseModel)` from pydantic_models.py. -/
structure CurrentTopic where
  course_code : CourseCode
  topic : String
  start_date : Option PyDateTime := none
deriving DecidableEq

/-- Serialize an optional string (JSON null when absent). -/
def optStr : Option String → JVal
  | none => .null
  | some s => .str s

/-- Serialize an optional datetime (JSON null when absent). -/
def optDT : Option PyDateTime → JVal
  | none => .null
  | some d => .str d.isoformat

/-- `Student.model_dump()`, serialized to JSON. -/
def Student.model_dump (s : Student) : JVal :=
  .obj [("id", .str s.id), ("name", .str s.name), ("email", .str s.email),
        ("phone", .str s.phone), ("course_code", .str s.course_code.value)]

/-- `ClassSchedule.model_dump()`, serialized to JSON. -/
def ClassSchedule.model_dump (c : ClassSchedule) : JVal :=
  .obj [("day", .str c.day.value), ("time", .str c.time)]

/-- `Todo.model_dump()`, serialized to JSON. -/
def Todo.model_dump (t : Todo) : JVal :=
  .obj [("id", .str t.id), ("description", .str t.description),
        ("due_date", optDT t.due_date)]

/-- `Enrollment.model_dump()`, serialized to JSON, fields in source order. -/
def Enrollment.model_dump (e : Enrollment) : JVal :=
  .obj [("id", .str e.id),
        ("course_code", .str e.course_code.value),
        ("section", .str e.sec.value),
        ("course_name", optStr e.course_name),
        ("instructor", .str e.instructor),
        ("schedule", .arr (e.schedule.map ClassSchedule.model_dump)),
        ("last_class_date", optDT e.last_class_date),
        ("last_class_covered", .str e.last_class_covered),
        ("todos", .arr (e.todos.map Todo.model_dump)),
        ("covered_topics", .arr (e.covered_topics.map JVal.str)),
        ("next_class_time", optDT e.next_class_time)]

/-- `CurrentTopic.model_dump()`, serialized to JSON. -/
def CurrentTopic.model_dump (t : CurrentTopic) : JVal :=
  .obj [("course_code", .str t.course_code.value), ("topic", .str t.topic),
        ("start_date", optDT t.start_date)]

/-- `student_store` from Data/dummy_data.py. -/
def student_store : List Student :=
  [{ id := "S123", name := "Ayaan Qureshi",
     email := "ayaan.qureshi@example.com", phone := "+923001112233",
     course_code := .AI_101 }]

/-- The record literal passed to the `Enrollment(...)` constructor in
Data/dummy_data.py; `eid`, `t1`, `t2` are the `uuid4()` identifiers drawn
at seeding time. No `course_name` argument is passed (it stays `None`
until the model validator runs). -/
def seedEnrollmentRaw (eid t1 t2 : String) : Enrollment :=
  { id := eid, course_code := .AI_101, sec := .A, course_name := none,
    instructor := "Sajid Khan",
    schedule := [{ day := .MONDAY, time := "10:00 AM - 11:30 AM" },
                 { day := .WEDNESDAY, time := "10:00 AM - 11:30 AM" }],
    last_class_date := some { year := 2025, month := 6, day := 2, hour := 10 },
    last_class_covered := "Introduction to Python",
    todos := [{ id := t1, description := "Complete assignment 1",
                due_date := some { year := 2025, month := 6, day := 10 } },
              { id := t2, description := "Read chapter 3",
                due_date := some { year := 2025, month := 6, day := 10 } }],
    covered_topics := ["Python Basics", "Introduction to Variables"],
    next_class_time := some { year := 2025, month := 6, day := 9, hour := 10 } }

/-- `enrollment_store` from Data/dummy_data.py (constructor validators run). -/
def enrollment_store (eid t1 t2 : String) : List Enrollment :=
  [mkEnrollment (seedEnrollmentRaw eid t1 t2)]

/-- `topic_store` from Data/dummy_data.py. -/
def topic_store : List CurrentTopic :=
  [{ course_code := .AI_101, topic := "Introduction to Lists",
     start_date := some { year := 2025, month := 6, day := 2 } }]

/-- The failure side of the Result Envelope, exactly the dict literal
`\x7b"success": False, "error": \x7b"code": ..., "message": ...\x7d\x7d`. -/
def failureEnv (code msg : String) : JVal :=
  .obj [("success", .bool false),
        ("error", .obj [("code", .str code), ("message", .str msg)])]

/-- The success side of the Result Envelope, exactly the dict literal
`\x7b"success": True, "data": ...\x7d`. -/
def successEnv (data : JVal) : JVal :=
  .obj [("success", .bool true), ("data", data)]

/-- `find_student` helper of server.py (fault-free path): linear scan,
first student whose id equals `student_id`. -/
def find_student (students : List Student) (student_id : String) :
    Option Student :=
  students.find? (fun s => s.id == student_id)

/-- `find_enrollment` helper of server.py (fault-free path): linear scan,
first enrollment whose course code equals `course_code`; the section is
not consulted. -/
def find_enrollment (enrollments : List Enrollment)
    (course_code : CourseCode) : Option Enrollment :=
  enrollments.find? (fun e => e.course_code == course_code)

/-- The inline `next(...)` scan shared by `get_class_schedule` and
`get_next_class_time`: first enrollment matching both course code and
section. -/
def findEnrollmentCS (enrollments : List Enrollment)
    (course_code : CourseCode) (sec : CourseSection) : Option Enrollment :=
  enrollments.find? (fun e =>
    e.course_code == course_code && e.sec == sec)

/-- The inline `next(...)` scan of `get_course_current_topic`: first
current topic matching the course code. -/
def findTopic (topics : List CurrentTopic) (course_code : CourseCode) :
    Option CurrentTopic :=
  topics.find? (fun t => t.course_code == course_code)

/-- `get_student_info` of server.py — the `students://.../profile`
resource (spec name: `get_student_profile`), fault-free path. -/
def get_student_info (students : List Student)
    (enrollments : List Enrollment) (student_id : String) : JVal :=
  match find_student students student_id with
  | none => failureEnv "STUDENT_NOT_FOUND" "Student not found"
  | some student =>
    match find_enrollment enrollments student.course_code with
    | none =>
      failureEnv "ENROLLMENT_NOT_FOUND"
        ("No enrollment found for course " ++ student.course_code.value)
    | some enrollment =>
      successEnv (.obj [("student", student.model_dump),
                        ("enrollment", enrollment.model_dump)])

/-- `get_class_schedule` tool of server.py, fault-free path. -/
def get_class_schedule (enrollments : List Enrollment)
    (course_code : CourseCode) (sec : CourseSection) : JVal :=
  match findEnrollmentCS enrollments course_code sec with
  | none =>
    failureEnv "SCHEDULE_NOT_FOUND"
      ("No schedule found for " ++ course_code.value ++ " section " ++
        sec.value)
  | some schedule_info =>
    successEnv (.obj [("course_code", .str course_code.value),
                      ("section", .str sec.value),
                      ("schedule",
                        .arr (schedule_info.schedule.map
                          ClassSchedule.model_dump))])

/-- `get_next_class_time` tool of server.py (spec name: `get_next_class`),
fault-free path. -/
def get_next_class_time (enrollments : List Enrollment)
    (course_code : CourseCode) (sec : CourseSection) : JVal :=
  match findEnrollmentCS enrollments course_code sec with
  | none =>
    failureEnv "SCHEDULE_NOT_FOUND"
      ("No schedule found for " ++ course_code.value ++ " section " ++
        sec.value)
  | some enrollment =>
    match enrollment.next_class_time with
    | none => failureEnv "NO_NEXT_CLASS" "No upcoming classes scheduled"
    | some t =>
      successEnv (.obj [("course_code", .str course_code.value),
                        ("section", .str sec.value),
                        ("next_class_time", .str t.isoformat),
                        ("instructor", .str enrollment.instructor)])

/-- `get_course_current_topic` tool of server.py (spec name:
`get_course_topic`), fault-free path. -/
def get_course_current_topic (topics : List CurrentTopic)
    (course_code : CourseCode) : JVal :=
  match findTopic topics course_code with
  | none =>
    failureEnv "TOPIC_NOT_FOUND"
      ("No current topic found for course " ++ course_code.value)
  | some topic => successEnv topic.model_dump

/-- `get_course_covered_topics` tool of server.py (spec name:
`get_covered_topics`), fault-free path. -/
def get_course_covered_topics (students : List Student)
    (enrollments : List Enrollment) (student_id : String) : JVal :=
  match find_student students student_id with
  | none => failureEnv "STUDENT_NOT_FOUND" "Student not found"
  | some student =>
    match enrollments.find? (fun e => e.course_code == student.course_code)
      with
    | none =>
      failureEnv "ENROLLMENT_NOT_FOUND"
        ("No enrollment found for course " ++ student.course_code.value)
    | some enrollment =>
      successEnv (.obj [("student_id", .str student_id),
                        ("course_code", .str student.course_code.value),
                        ("course_name", optStr enrollment.course_name),
                        ("instructor", .str enrollment.instructor),
                        ("covered_topics",
                          .arr (enrollment.covered_topics.map JVal.str))])

/-- Fault-instrumented `find_student` (server.py lines 31-37): the
helper's own `try/except` catches a fault raised during the scan and
returns `None`. -/
def find_student_f (fault : Bool) (students : List Student)
    (student_id : String) : Option Student :=
  match (if fault then Except.error () else
      Except.ok (find_student students student_id) :
      Except Unit (Option Student)) with
  | .error _ => none
  | .ok r => r

/-- Fault-instrumented `find_enrollment` (server.py lines 40-46): the
helper's own `try/except` catches a fault raised during the scan and
returns `None`. -/
def find_enrollment_f (fault : Bool) (enrollments : List Enrollment)
    (course_code : CourseCode) : Option Enrollment :=
  match (if fault then Except.error () else
      Except.ok (find_enrollment enrollments course_code) :
      Except Unit (Option Enrollment)) with
  | .error _ => none
  | .ok r => r

/-- Fault-instrumented `get_student_info`: the source has no `try/except`
at this operation's boundary; the only faultable steps of its body are
the two helper scans, whose internal handlers turn a fault into `None`. -/
def get_student_info_f (faultS faultE : Bool) (students : List Student)
    (enrollments : List Enrollment) (student_id : String) : JVal :=
  match find_student_f faultS students student_id with
  | none => failureEnv "STUDENT_NOT_FOUND" "Student not found"
  | some student =>
    match find_enrollment_f faultE enrollments student.course_code with
    | none =>
      failureEnv "ENROLLMENT_NOT_FOUND"
        ("No enrollment found for course " ++ student.course_code.value)
    | some enrollment =>
      successEnv (.obj [("student", student.model_dump),
                        ("enrollment", enrollment.model_dump)])

/-- Fault-instrumented `get_class_schedule`: the whole body runs inside
`try`; a fault raised at the lookup aborts the body and the `except`
handler returns the `INTERNAL_ERROR` envelope. -/
def get_class_schedule_f (fault : Bool) (enrollments : List Enrollment)
    (course_code : CourseCode) (sec : CourseSection) : JVal :=
  match (if fault then Except.error () else Except.ok () :
      Except Unit Unit) with
  | .error _ => failureEnv "INTERNAL_ERROR" "Failed to fetch schedule"
  | .ok _ => get_class_schedule enrollments course_code sec

/-- Fault-instrumented `get_next_class_time`: body inside `try`, fault at
the lookup caught by the `except` handler as `INTERNAL_ERROR`. -/
def get_next_class_time_f (fault : Bool) (enrollments : List Enrollment)
    (course_code : CourseCode) (sec : CourseSection) : JVal :=
  match (if fault then Except.error () else Except.ok () :
      Except Unit Unit) with
  | .error _ =>
    failureEnv "INTERNAL_ERROR" "Failed to fetch next class time"
  | .ok _ => get_next_class_time enrollments course_code sec

/-- Fault-instrumented `get_course_current_topic`: body inside `try`,
fault at the lookup caught by the `except` handler as `INTERNAL_ERROR`. -/
def get_course_current_topic_f (fault : Bool) (topics : List CurrentTopic)
    (course_code : CourseCode) : JVal :=
  match (if fault then Except.error () else Except.ok () :
      Except Unit Unit) with
  | .error _ => failureEnv "INTERNAL_ERROR" "Failed to fetch current topic"
  | .ok _ => get_course_current_topic topics course_code

/-- Fault-instrumented `get_course_covered_topics`: the body runs inside
`try`, but a fault raised inside `find_student` is already caught by the
helper's own handler (yielding `None`), so only a fault at the inline
enrollment scan reaches the boundary `except` handler. -/
def get_course_covered_topics_f (faultS faultE : Bool)
    (students : List Student) (enrollments : List Enrollment)
    (student_id : String) : JVal :=
  match find_student_f faultS students student_id with
  | none => failureEnv "STUDENT_NOT_FOUND" "Student not found"
  | some student =>
    match (if faultE then Except.error () else
        Except.ok (enrollments.find?
          (fun e => e.course_code == student.course_code)) :
        Except Unit (Option Enrollment)) with
    | .error _ =>
      failureEnv "INTERNAL_ERROR" "Failed to fetch covered topics"
    | .ok none =>
      failureEnv "ENROLLMENT_NOT_FOUND"
        ("No enrollment found for course " ++ student.course_code.value)
    | .ok (some enrollment) =>
      successEnv (.obj [("student_id", .str student_id),
                        ("course_code", .str student.course_code.value),
                        ("course_name", optStr enrollment.course_name),
                        ("instructor", .str enrollment.instructor),
                        ("covered_topics",
                          .arr (enrollment.covered_topics.map JVal.str))])

/-- The module-level Domain Store globals of server.py, as one state. -/
structure ServerState where
  students : List Student
  enrollments : List Enrollment
  topics : List CurrentTopic
deriving DecidableEq

/-- `get_student_info` reading the module-level store as mutable state:
the body only reads the globals and never assigns to them. -/
def get_student_info_op (student_id : String) : StateM ServerState JVal := do
  let st ← get
  pure (get_student_info st.students st.enrollments student_id)

/-- `get_class_schedule` reading the module-level store as mutable state. -/
def get_class_schedule_op (course_code : CourseCode) (sec : CourseSection) :
    StateM ServerState JVal := do
  let st ← get
  pure (get_class_schedule st.enrollments course_code sec)

/-- `get_next_class_time` reading the module-level store as mutable
state. -/
def get_next_class_time_op (course_code : CourseCode)
    (sec : CourseSection) : StateM ServerState JVal := do
  let st ← get
  pure (get_next_class_time st.enrollments course_code sec)

/-- `get_course_current_topic` reading the module-level store as mutable
state. -/
def get_course_current_topic_op (course_code : CourseCode) :
    StateM ServerState JVal := do
  let st ← get
  pure (get_course_current_topic st.topics course_code)

/-- `get_course_covered_topics` reading the module-level store as mutable
state. -/
def get_course_covered_topics_op (student_id : String) :
    StateM ServerState JVal := do
  let st ← get
  pure (get_course_covered_topics st.students st.enrollments student_id)

/-- Pydantic decoding of a wire string into the `CourseCode` str-enum
(validation by enum value against pydantic_models.py lines 9-13). -/
def CourseCode.fromString (s : String) : Option CourseCode :=
  if s = "AI-101" then some .AI_101
  else if s = "AI-201" then some .AI_201
  else if s = "AI-202" then some .AI_202
  else if s = "AI-301" then some .AI_301
  else none

/-- Pydantic decoding of a wire string into the `CourseSection` str-enum
(validation by enum value against pydantic_models.py lines 24-27). -/
def CourseSection.fromString (s : String) : Option CourseSection :=
  if s = "A" then some .A
  else if s = "B" then some .B
  else if s = "C" then some .C
  else none

/-- Modelled from the spec: the external transport's dispatch boundary
(spec section 6) performs argument binding/validation — course code and
section must decode to the fixed enums — before invoking the Query
Service operation; the dispatch mechanism itself (FastMCP) is not part of
the repository's sources. A call whose argument does not decode is
rejected with a validation error and the lookup never runs. -/
def dispatch_get_class_schedule (enrollments : List Enrollment)
    (course_code_arg sec_arg : String) : Except String JVal :=
  match CourseCode.fromString course_code_arg,
      CourseSection.fromString sec_arg with
  | some cc, some sec => Except.ok (get_class_schedule enrollments cc sec)
  | _, _ => Except.error "argument is not a member of the fixed enums"

/-- Modelled from the spec: dispatch boundary for `get_next_class`
(see `dispatch_get_class_schedule`). -/
def dispatch_get_next_class (enrollments : List Enrollment)
    (course_code_arg sec_arg : String) : Except String JVal :=
  match CourseCode.fromString course_code_arg,
      CourseSection.fromString sec_arg with
  | some cc, some sec => Except.ok (get_next_class_time enrollments cc sec)
  | _, _ => Except.error "argument is not a member of the fixed enums"

/-- Modelled from the spec: dispatch boundary for `get_course_topic`
(see `dispatch_get_class_schedule`). -/
def dispatch_get_course_topic (topics : List CurrentTopic)
    (course_code_arg : String) : Except String JVal :=
  match CourseCode.fromString course_code_arg with
  | some cc => Except.ok (get_course_current_topic topics cc)
  | none => Except.error "argument is not a member of the fixed enums"

/-- The `error.code` string of an envelope, when one is present. -/
def errorCode (v : JVal) : Option String :=
  match (jget v "error").bind (fun e => jget e "code") with
  | some (.str s) => some s
  | _ => none

/-- The `success` flag of an envelope, when one is present. -/
def successFlag (v : JVal) : Option Bool :=
  match jget v "success" with
  | some (.bool b) => some b
  | _ => none

theorem seed_iso :
    PyDateTime.isoformat { year := 2025, month := 6, day := 9, hour := 10 }
      = "2025-06-09T10:00:00" := rfl

theorem CourseCode.beq_decide (a b : CourseCode) :
    (a == b) = decide (a = b) := rfl

theorem CourseSection.beq_decideS (a b : CourseSection) :
    (a == b) = decide (a = b) := rfl

/-- C5: on the program's Domain Store, `get_next_class` fails with
`SCHEDULE_NOT_FOUND` iff no enrollment matches both the course code and
the section, fails with `NO_NEXT_CLASS` iff a matching enrollment exists
with `next_class_time` unset, and otherwise succeeds with the course
code, section, the ISO-8601 rendering of the seeded timestamp, and the
enrollment's instructor. -/
theorem C5_next_class_trichotomy (eid u1 u2 : String) (cc : CourseCode)
    (sec : CourseSection) :
    (errorCode (get_next_class_time (enrollment_store eid u1 u2) cc sec)
        = some "SCHEDULE_NOT_FOUND"
      ↔ ¬ ∃ e ∈ enrollment_store eid u1 u2,
          e.course_code = cc ∧ e.sec = sec) ∧
    (errorCode (get_next_class_time (enrollment_store eid u1 u2) cc sec)
        = some "NO_NEXT_CLASS"
      ↔ ∃ e ∈ enrollment_store eid u1 u2,
          e.course_code = cc ∧ e.sec = sec ∧ e.next_class_time = none) ∧
    (get_next_class_time (enrollment_store eid u1 u2) cc sec
        = successEnv (.obj [("course_code", .str cc.value),
            ("section", .str sec.value),
            ("next_class_time", .str "2025-06-09T10:00:00"),
            ("instructor", .str "Sajid Khan")])
      ↔ ∃ e ∈ enrollment_store eid u1 u2,
          e.course_code = cc ∧ e.sec = sec ∧ e.next_class_time ≠ none) := by
  cases cc <;> cases sec <;>
    simp [enrollment_store, seedEnrollmentRaw, mkEnrollment,
      Enrollment.set_course_name, strFalsy, get_next_class_time,
      findEnrollmentCS, errorCode, jget, successEnv, failureEnv,
      List.find?, seed_iso, CourseCode.beq_decide, CourseSection.beq_decideS,
      CourseCode.value, CourseSection.value, Enrollment.course_titles]

/-- C6: on the seed data, `get_covered_topics("S123")` succeeds with
`covered_topics = ["Python Basics", "Introduction to Variables"]` in that
order and `course_name = "Modern AI Python Programming"`, the latter
derived from the static course-title table when the `Enrollment` was
constructed (the seed record itself carries no course name). -/
theorem C6_covered_topics_seed (eid u1 u2 : String) :
    get_course_covered_topics student_store (enrollment_store eid u1 u2)
        "S123"
      = successEnv (.obj [("student_id", .str "S123"),
          ("course_code", .str "AI-101"),
          ("course_name", .str "Modern AI Python Programming"),
          ("instructor", .str "Sajid Khan"),
          ("covered_topics", .arr [.str "Python Basics",
            .str "Introduction to Variables"])]) ∧
    (seedEnrollmentRaw eid u1 u2).course_name = none ∧
    (mkEnrollment (seedEnrollmentRaw eid u1 u2)).course_name
      = Enrollment.course_titles CourseCode.AI_101 ∧
    Enrollment.course_titles CourseCode.AI_101
      = some "Modern AI Python Programming" :=
  ⟨rfl, rfl, rfl, rfl⟩

/-- C7: on the seed data, `get_class_schedule("AI-101", "A")` succeeds
with exactly two schedule entries — Monday then Wednesday, both
"10:00 AM - 11:30 AM" — and `get_class_schedule("AI-101", "B")` fails
with `error.code = "SCHEDULE_NOT_FOUND"`. -/
theorem C7_class_schedule_seed (eid u1 u2 : String) :
    get_class_schedule (enrollment_store eid u1 u2) .AI_101 .A
      = successEnv (.obj [("course_code", .str "AI-101"),
          ("section", .str "A"),
          ("schedule", .arr [
            .obj [("day", .str "Monday"),
                  ("time", .str "10:00 AM - 11:30 AM")],
            .obj [("day", .str "Wednesday"),
                  ("time", .str "10:00 AM - 11:30 AM")]])]) ∧
    get_class_schedule (enrollment_store eid u1 u2) .AI_101 .B
      = failureEnv "SCHEDULE_NOT_FOUND"
          "No schedule found for AI-101 section B" :=
  ⟨rfl, rfl⟩

/-- C10: an `Enrollment` constructed with `course_name` explicitly set to
the empty string has it replaced by the static title for its course code
(the validator fires on any falsy `course_name`), and consequently no
constructed `Enrollment` ever carries an empty-string `course_name`. -/
theorem C10_empty_course_name_refilled (e : Enrollment) :
    (mkEnrollment { e with course_name := some "" }).course_name
      = Enrollment.course_titles e.course_code ∧
    (mkEnrollment e).course_name ≠ some "" := by
  constructor
  · simp [mkEnrollment, Enrollment.set_course_name, strFalsy]
  · by_cases h : strFalsy e.course_name
    · have hset : (mkEnrollment e).course_name
          = Enrollment.course_titles e.course_code := by
        simp [mkEnrollment, Enrollment.set_course_name, h]
      rw [hset]
      cases h2 : e.course_code <;> simp [Enrollment.course_titles]
    · have hset : (mkEnrollment e).course_name = e.course_name := by
        simp [mkEnrollment, Enrollment.set_course_name, h]
      rw [hset]
      intro hc
      rw [hc] at h
      simp [strFalsy] at h

/-- The Result Envelope shape the code actually returns: a JSON object
holding the `success` key plus exactly one of `data`/`error` (the
inactive key is absent rather than null), with `error` an object of
string `code` and `message`. -/
def envelopeShape (v : JVal) : Prop :=
  (v.keys = ["success", "data"] ∧ jget v "success" = some (.bool true) ∧
    (∃ d, jget v "data" = some d) ∧ jget v "error" = none) ∨
  (v.keys = ["success", "error"] ∧ jget v "success" = some (.bool false) ∧
    jget v "data" = none ∧
    ∃ c m, jget v "error"
      = some (.obj [("code", .str c), ("message", .str m)]))

theorem successEnv_shape (d : JVal) : envelopeShape (successEnv d) := by
  left
  simp [envelopeShape, successEnv, jget, JVal.keys, List.find?]

theorem failureEnv_shape (c m : String) : envelopeShape (failureEnv c m) := by
  right
  simp [envelopeShape, failureEnv, jget, JVal.keys, List.find?]

/-- C2 (amended): for every operation and input the returned envelope is
a JSON object with a boolean `success` key and exactly one of `data` or
`error` — `data` populated and `error` absent on success, `error`
populated (an object with string `code` and `message`) and `data` absent
on failure. The inactive key is omitted from the object, not carried as
null. -/
theorem C2_envelope_shape (ss : List Student) (es : List Enrollment)
    (ts : List CurrentTopic) (sid sid2 : String) (cc : CourseCode)
    (sec : CourseSection) :
    envelopeShape (get_student_info ss es sid) ∧
    envelopeShape (get_class_schedule es cc sec) ∧
    envelopeShape (get_next_class_time es cc sec) ∧
    envelopeShape (get_course_current_topic ts cc) ∧
    envelopeShape (get_course_covered_topics ss es sid2) := by
  refine ⟨?_, ?_, ?_, ?_, ?_⟩
  · unfold get_student_info
    cases hs : find_student ss sid with
    | none => exact failureEnv_shape ..
    | some student =>
      dsimp only
      cases he : find_enrollment es student.course_code with
      | none => exact failureEnv_shape ..
      | some enrollment => exact successEnv_shape ..
  · unfold get_class_schedule
    cases hf : findEnrollmentCS es cc sec with
    | none => exact failureEnv_shape ..
    | some schedule_info => exact successEnv_shape ..
  · unfold get_next_class_time
    cases hf : findEnrollmentCS es cc sec with
    | none => exact failureEnv_shape ..
    | some enrollment =>
      dsimp only
      cases ht : enrollment.next_class_time with
      | none => exact failureEnv_shape ..
      | some t => exact successEnv_shape ..
  · unfold get_course_current_topic
    cases hf : findTopic ts cc with
    | none => exact failureEnv_shape ..
    | some topic => exact successEnv_shape ..
  · unfold get_course_covered_topics
    cases hs : find_student ss sid2 with
    | none => exact failureEnv_shape ..
    | some student =>
      dsimp only
      cases he : es.find? (fun e => e.course_code == student.course_code)
        with
      | none => exact failureEnv_shape ..
      | some enrollment => exact successEnv_shape ..

/-- C2 is false as stated: on the seed store, the failure envelope of
`get_class_schedule("AI-101", "B")` carries no `data` key at all (the
claim requires all three keys, with `data` null), and the success
envelope of `get_class_schedule("AI-101", "A")` carries no `error` key. -/
theorem C2_counterexample :
    (get_class_schedule (enrollment_store "E" "U1" "U2") CourseCode.AI_101
        CourseSection.B).keys = ["success", "error"] ∧
    "data" ∉ (get_class_schedule (enrollment_store "E" "U1" "U2")
        CourseCode.AI_101 CourseSection.B).keys ∧
    "error" ∉ (get_class_schedule (enrollment_store "E" "U1" "U2")
        CourseCode.AI_101 CourseSection.A).keys := by
  refine ⟨rfl, ?_, ?_⟩ <;> decide

/-- C3: for every store whose student ids are unique (the Domain Store
invariant), a student id matching a Student record whose course code
matches some Enrollment record makes `get_student_profile` succeed with
`data.student.id` equal to the input id and `data.enrollment.course_code`
equal to that student's course code. -/
theorem C3_student_profile (ss : List Student) (es : List Enrollment)
    (sid : String) (s : Student)
    (huniq : ss.Pairwise (fun a b => a.id ≠ b.id))
    (hs : s ∈ ss) (hid : s.id = sid)
    (he : ∃ e ∈ es, e.course_code = s.course_code) :
    successFlag (get_student_info ss es sid) = some true ∧
    ((jget (get_student_info ss es sid) "data").bind
        (fun d => (jget d "student").bind (fun st => jget st "id")))
      = some (.str sid) ∧
    ((jget (get_student_info ss es sid) "data").bind
        (fun d => (jget d "enrollment").bind
          (fun en => jget en "course_code")))
      = some (.str s.course_code.value) := by
  have hsome : (ss.find? (fun x => x.id == sid)).isSome := by
    rw [List.find?_isSome]
    exact ⟨s, hs, by simp [hid]⟩
  obtain ⟨t, ht⟩ := Option.isSome_iff_exists.mp hsome
  have htmem : t ∈ ss := List.mem_of_find?_eq_some ht
  have htid : t.id = sid := by
    have hp := List.find?_some ht
    simpa using hp
  have hts : t = s := by
    by_contra hne
    have hR := List.Pairwise.forall (R := fun a b => a.id ≠ b.id)
      (fun _ _ hxy he2 => hxy he2.symm) huniq htmem hs hne
    exact hR (htid.trans hid.symm)
  subst hts
  have hfs : find_student ss sid = some t := ht
  have hesome :
      (es.find? (fun e => e.course_code == t.course_code)).isSome := by
    rw [List.find?_isSome]
    obtain ⟨e, hem, hecc⟩ := he
    exact ⟨e, hem, by simp [hecc, CourseCode.beq_decide]⟩
  obtain ⟨en, hen⟩ := Option.isSome_iff_exists.mp hesome
  have hencc : en.course_code = t.course_code := by
    have hp := List.find?_some hen
    simpa [CourseCode.beq_decide] using hp
  have hfe : find_enrollment es t.course_code = some en := hen
  refine ⟨?_, ?_, ?_⟩ <;>
    simp [get_student_info, hfs, hfe, successFlag, successEnv, jget,
      Student.model_dump, Enrollment.model_dump, List.find?, htid, hencc]

theorem C3_student_profile_witness :
    successFlag (get_student_info student_store
        (enrollment_store "E" "U1" "U2") "S123") = some true ∧
    ((jget (get_student_info student_store (enrollment_store "E" "U1" "U2")
          "S123") "data").bind
        (fun d => (jget d "student").bind (fun st => jget st "id")))
      = some (.str "S123") ∧
    ((jget (get_student_info student_store (enrollment_store "E" "U1" "U2")
          "S123") "data").bind
        (fun d => (jget d "enrollment").bind
          (fun en => jget en "course_code")))
      = some (.str "AI-101") :=
  C3_student_profile student_store (enrollment_store "E" "U1" "U2") "S123"
    { id := "S123", name := "Ayaan Qureshi",
      email := "ayaan.qureshi@example.com", phone := "+923001112233",
      course_code := .AI_101 }
    (by simp [student_store]) (by simp [student_store]) rfl
    ⟨mkEnrollment (seedEnrollmentRaw "E" "U1" "U2"),
      by simp [enrollment_store], rfl⟩

theorem find?_first_match {α : Type} (p : α → Bool) (l : List α) (a : α)
    (h : l.find? p = some a) :
    p a = true ∧ ∃ i : Fin l.length, l.get i = a ∧
      ∀ j : Fin l.length, (j : Nat) < (i : Nat) → p (l.get j) = false := by
  rw [List.find?_eq_some_iff_getElem] at h
  obtain ⟨hpa, i, hi, hget, hmin⟩ := h
  refine ⟨hpa, ⟨i, hi⟩, by simpa using hget, ?_⟩
  intro j hj
  have hb := hmin j hj
  simpa using hb

/-- C4: every lookup is a linear scan in which the first matching record
in insertion order wins: whenever a scan returns a record, that record
matches and every earlier record fails the match predicate — in
particular `find_enrollment`, keyed on course code alone, returns the
earliest enrollment with that course code regardless of section. -/
theorem C4_first_match_wins :
    (∀ (ss : List Student) (sid : String) (s : Student),
      find_student ss sid = some s →
      s.id = sid ∧ ∃ i : Fin ss.length, ss.get i = s ∧
        ∀ j : Fin ss.length, (j : Nat) < (i : Nat) →
          (ss.get j).id ≠ sid) ∧
    (∀ (es : List Enrollment) (cc : CourseCode) (e : Enrollment),
      find_enrollment es cc = some e →
      e.course_code = cc ∧ ∃ i : Fin es.length, es.get i = e ∧
        ∀ j : Fin es.length, (j : Nat) < (i : Nat) →
          (es.get j).course_code ≠ cc) ∧
    (∀ (es : List Enrollment) (cc : CourseCode) (sec : CourseSection)
        (e : Enrollment),
      findEnrollmentCS es cc sec = some e →
      (e.course_code = cc ∧ e.sec = sec) ∧ ∃ i : Fin es.length,
        es.get i = e ∧ ∀ j : Fin es.length, (j : Nat) < (i : Nat) →
          ¬((es.get j).course_code = cc ∧ (es.get j).sec = sec)) ∧
    (∀ (ts : List CurrentTopic) (cc : CourseCode) (t : CurrentTopic),
      findTopic ts cc = some t →
      t.course_code = cc ∧ ∃ i : Fin ts.length, ts.get i = t ∧
        ∀ j : Fin ts.length, (j : Nat) < (i : Nat) →
          (ts.get j).course_code ≠ cc) := by
  refine ⟨?_, ?_, ?_, ?_⟩
  · intro ss sid s h
    obtain ⟨hp, i, hget, hmin⟩ := find?_first_match _ _ _ h
    refine ⟨by simpa using hp, i, hget, ?_⟩
    intro j hj hcon
    have hpj := hmin j hj
    simp at hpj
    exact hpj (by simpa using hcon)
  · intro es cc e h
    obtain ⟨hp, i, hget, hmin⟩ := find?_first_match _ _ _ h
    refine ⟨by simpa [CourseCode.beq_decide] using hp, i, hget, ?_⟩
    intro j hj hcon
    have hpj := hmin j hj
    simp [CourseCode.beq_decide] at hpj
    exact hpj (by simpa using hcon)
  · intro es cc sec e h
    obtain ⟨hp, i, hget, hmin⟩ := find?_first_match _ _ _ h
    refine ⟨by simpa [CourseCode.beq_decide, CourseSection.beq_decideS] using hp,
      i, hget, ?_⟩
    intro j hj hcon
    have hpj := hmin j hj
    simp [CourseCode.beq_decide, CourseSection.beq_decideS] at hpj
    exact hpj (by simpa using hcon.1) (by simpa using hcon.2)
  · intro ts cc t h
    obtain ⟨hp, i, hget, hmin⟩ := find?_first_match _ _ _ h
    refine ⟨by simpa [CourseCode.beq_decide] using hp, i, hget, ?_⟩
    intro j hj hcon
    have hpj := hmin j hj
    simp [CourseCode.beq_decide] at hpj
    exact hpj (by simpa using hcon)

/-- Two seed-shaped enrollments sharing course code AI-101 (sections A
then B): an ambiguous store exercising the first-match tie-break. -/
def ambiguousStore : List Enrollment :=
  [mkEnrollment (seedEnrollmentRaw "E1" "U1" "U2"),
   mkEnrollment { seedEnrollmentRaw "E2" "U3" "U4" with sec := .B }]

theorem C4_first_match_wins_witness :
    (mkEnrollment (seedEnrollmentRaw "E1" "U1" "U2")).course_code
        = CourseCode.AI_101 ∧
    ∃ i : Fin ambiguousStore.length,
      ambiguousStore.get i
          = mkEnrollment (seedEnrollmentRaw "E1" "U1" "U2") ∧
      ∀ j : Fin ambiguousStore.length, (j : Nat) < (i : Nat) →
        (ambiguousStore.get j).course_code ≠ CourseCode.AI_101 :=
  C4_first_match_wins.2.1 ambiguousStore CourseCode.AI_101
    (mkEnrollment (seedEnrollmentRaw "E1" "U1" "U2")) rfl

/-- C1 (amended): the four tool operations (`get_class_schedule`,
`get_next_class`, `get_course_topic`, `get_covered_topics`) catch an
unexpected internal fault raised during their inline lookup at the
operation boundary and answer with a Failure envelope of code
`INTERNAL_ERROR`; the resource operation `get_student_profile` has no
boundary handler of its own — a fault raised during its lookups is
swallowed inside the `find_student`/`find_enrollment` helpers and
surfaces as `STUDENT_NOT_FOUND` (resp. `ENROLLMENT_NOT_FOUND`), never as
`INTERNAL_ERROR`; likewise a fault inside `find_student` during
`get_covered_topics` surfaces as `STUDENT_NOT_FOUND`. No fault raised
during a lookup escapes any operation: the caller always receives a
well-formed envelope. -/
theorem C1_fault_boundary (ss : List Student) (es : List Enrollment)
    (ts : List CurrentTopic) (sid : String) (cc : CourseCode)
    (sec : CourseSection) :
    get_class_schedule_f true es cc sec
        = failureEnv "INTERNAL_ERROR" "Failed to fetch schedule" ∧
    get_next_class_time_f true es cc sec
        = failureEnv "INTERNAL_ERROR" "Failed to fetch next class time" ∧
    get_course_current_topic_f true ts cc
        = failureEnv "INTERNAL_ERROR" "Failed to fetch current topic" ∧
    (∀ s, find_student ss sid = some s →
      get_course_covered_topics_f false true ss es sid
        = failureEnv "INTERNAL_ERROR" "Failed to fetch covered topics") ∧
    (∀ fE : Bool, get_course_covered_topics_f true fE ss es sid
        = failureEnv "STUDENT_NOT_FOUND" "Student not found") ∧
    (∀ fE : Bool, get_student_info_f true fE ss es sid
        = failureEnv "STUDENT_NOT_FOUND" "Student not found") ∧
    (∀ s, find_student ss sid = some s →
      get_student_info_f false true ss es sid
        = failureEnv "ENROLLMENT_NOT_FOUND"
            ("No enrollment found for course " ++ s.course_code.value)) ∧
    (∀ fS fE : Bool, envelopeShape (get_student_info_f fS fE ss es sid)) := by
  refine ⟨rfl, rfl, rfl, ?_, fun _ => rfl, fun _ => rfl, ?_, ?_⟩
  · intro s h
    simp [get_course_covered_topics_f, find_student_f, h]
  · intro s h
    simp [get_student_info_f, find_student_f, find_enrollment_f, h]
  · intro fS fE
    unfold get_student_info_f
    cases hs : find_student_f fS ss sid with
    | none => exact failureEnv_shape ..
    | some student =>
      dsimp only
      cases he : find_enrollment_f fE es student.course_code with
      | none => exact failureEnv_shape ..
      | some enrollment => exact successEnv_shape ..

theorem C1_fault_boundary_witness :
    get_course_covered_topics_f false true student_store
        (enrollment_store "E" "U1" "U2") "S123"
      = failureEnv "INTERNAL_ERROR" "Failed to fetch covered topics" :=
  (C1_fault_boundary student_store (enrollment_store "E" "U1" "U2")
      topic_store "S123" CourseCode.AI_101 CourseSection.A).2.2.2.1
    { id := "S123", name := "Ayaan Qureshi",
      email := "ayaan.qureshi@example.com", phone := "+923001112233",
      course_code := .AI_101 } rfl

/-- C1 is false as stated: an unexpected internal fault injected into
the lookup of `get_student_profile("S123")` is answered with error code
`STUDENT_NOT_FOUND`, not `INTERNAL_ERROR` — the fault is caught inside
the `find_student` helper, not at the operation's boundary, and the
operation has no `INTERNAL_ERROR` path at all. -/
theorem C1_counterexample :
    get_student_info_f true false student_store
        (enrollment_store "E" "U1" "U2") "S123"
      = failureEnv "STUDENT_NOT_FOUND" "Student not found" ∧
    errorCode (get_student_info_f true false student_store
        (enrollment_store "E" "U1" "U2") "S123")
      = some "STUDENT_NOT_FOUND" ∧
    errorCode (get_student_info_f true false student_store
        (enrollment_store "E" "U1" "U2") "S123")
      ≠ some "INTERNAL_ERROR" := by
  refine ⟨rfl, rfl, ?_⟩
  decide

/-- C8: each operation, run against the module-level Domain Store as
state, leaves the store unchanged (students, enrollments and topics
tables untouched), its envelope is a function of the store and the
arguments alone, and an immediately repeated identical call returns the
identical envelope and state. -/
theorem C8_pure_idempotent (st : ServerState) (sid sid2 : String)
    (cc : CourseCode) (sec : CourseSection) :
    ((get_student_info_op sid).run st
        = (get_student_info st.students st.enrollments sid, st)) ∧
    ((get_class_schedule_op cc sec).run st
        = (get_class_schedule st.enrollments cc sec, st)) ∧
    ((get_next_class_time_op cc sec).run st
        = (get_next_class_time st.enrollments cc sec, st)) ∧
    ((get_course_current_topic_op cc).run st
        = (get_course_current_topic st.topics cc, st)) ∧
    ((get_course_covered_topics_op sid2).run st
        = (get_course_covered_topics st.students st.enrollments sid2, st)) ∧
    ((get_student_info_op sid).run (((get_student_info_op sid).run st).2)
        = (get_student_info_op sid).run st) ∧
    ((get_class_schedule_op cc sec).run
          (((get_class_schedule_op cc sec).run st).2)
        = (get_class_schedule_op cc sec).run st) ∧
    ((get_next_class_time_op cc sec).run
          (((get_next_class_time_op cc sec).run st).2)
        = (get_next_class_time_op cc sec).run st) ∧
    ((get_course_current_topic_op cc).run
          (((get_course_current_topic_op cc).run st).2)
        = (get_course_current_topic_op cc).run st) ∧
    ((get_course_covered_topics_op sid2).run
          (((get_course_covered_topics_op sid2).run st).2)
        = (get_course_covered_topics_op sid2).run st) :=
  ⟨rfl, rfl, rfl, rfl, rfl, rfl, rfl, rfl, rfl, rfl⟩

/-- C9: a course-code or section argument whose value lies outside the
fixed enums is rejected by argument validation at the dispatch boundary:
the dispatch returns a validation error and no envelope at all — in
particular never a not-found failure envelope — and an envelope is only
produced when every enum argument decodes, in which case it is the
operation's answer for the decoded values. -/
theorem C9_validation_boundary (es : List Enrollment)
    (ts : List CurrentTopic) (s1 s2 : String) :
    ((CourseCode.fromString s1 = none ∨
        CourseSection.fromString s2 = none) →
      dispatch_get_class_schedule es s1 s2
          = Except.error "argument is not a member of the fixed enums" ∧
      dispatch_get_next_class es s1 s2
          = Except.error "argument is not a member of the fixed enums") ∧
    (CourseCode.fromString s1 = none →
      dispatch_get_course_topic ts s1
          = Except.error "argument is not a member of the fixed enums") ∧
    (∀ v, dispatch_get_class_schedule es s1 s2 = Except.ok v →
      ∃ cc sec, CourseCode.fromString s1 = some cc ∧
        CourseSection.fromString s2 = some sec ∧
        v = get_class_schedule es cc sec) ∧
    (∀ v, dispatch_get_next_class es s1 s2 = Except.ok v →
      ∃ cc sec, CourseCode.fromString s1 = some cc ∧
        CourseSection.fromString s2 = some sec ∧
        v = get_next_class_time es cc sec) ∧
    (∀ v, dispatch_get_course_topic ts s1 = Except.ok v →
      ∃ cc, CourseCode.fromString s1 = some cc ∧
        v = get_course_current_topic ts cc) := by
  cases h1 : CourseCode.fromString s1 with
  | none =>
    cases h2 : CourseSection.fromString s2 <;>
      simp [dispatch_get_class_schedule, dispatch_get_next_class,
        dispatch_get_course_topic, h1, h2]
  | some cc =>
    cases h2 : CourseSection.fromString s2 <;>
      simp [dispatch_get_class_schedule, dispatch_get_next_class,
        dispatch_get_course_topic, h1, h2]

theorem C9_validation_boundary_witness :
    dispatch_get_class_schedule (enrollment_store "E" "U1" "U2")
        "AI-999" "A"
      = Except.error "argument is not a member of the fixed enums" ∧
    dispatch_get_next_class (enrollment_store "E" "U1" "U2") "AI-999" "A"
      = Except.error "argument is not a member of the fixed enums" :=
  (C9_validation_boundary (enrollment_store "E" "U1" "U2") topic_store
    "AI-999" "A").1 (Or.inl rfl)
